import Mathlib

/-!
Shallow embedding of the adapter-management command encoders of
src/src/Mgmt.cpp and the public surface of src/include/Gobbledegook.h
(ble-ggk-linux).  Machine integers are modelled as Nat with explicit
truncation (`% 256` for a uint8_t store, and the two-byte little-endian
writer for a uint16_t store).  A C byte buffer is a `List Nat`; a possibly
null pointer is an `Option (List Nat)` with `none` for the null pointer.
-/

namespace GGK

/-- Little-endian bytes of a 16-bit store (truncates like a uint16_t field). -/
def le16 (v : Nat) : List Nat :=
  [v % 256, v / 256 % 256]

/-- Little-endian bytes of a 32-bit store (truncates like a uint32_t field). -/
def le32 (v : Nat) : List Nat :=
  [v % 256, v / 256 % 256, v / 65536 % 256, v / 16777216 % 256]

/-- Modelled from the spec: the packed 6-byte HciAdapter::HciHeader
(`code`:u16, `controllerId`:u16, `dataSize`:u16, little-endian, no padding);
HciAdapter.h is not part of the excerpted sources. -/
def hciHeader (code controllerId dataSize : Nat) : List Nat :=
  le16 code ++ le16 controllerId ++ le16 dataSize

/-- Read back a little-endian 16-bit value at byte offset `i` of a packet. -/
def readLE16 (p : List Nat) (i : Nat) : Nat :=
  p.getD i 0 + 256 * p.getD (i + 1) 0

/-- Modelled from the spec: command identifier constants of the missing
Mgmt.h header.  The claims depend only on each constant being the id of its
command, not on the numeric value. -/
def ESetPoweredCommand : Nat := 5

/-- Modelled from the spec: see `ESetPoweredCommand`. -/
def ESetDiscoverableCommand : Nat := 6

/-- Modelled from the spec: see `ESetPoweredCommand`. -/
def ESetConnectableCommand : Nat := 7

/-- Modelled from the spec: see `ESetPoweredCommand`. -/
def ESetBondableCommand : Nat := 9

/-- Modelled from the spec: see `ESetPoweredCommand`. -/
def ESetLowEnergyCommand : Nat := 13

/-- Modelled from the spec: see `ESetPoweredCommand`. -/
def ESetLocalNameCommand : Nat := 15

/-- Modelled from the spec: see `ESetPoweredCommand`. -/
def ESetAdvertisingCommand : Nat := 41

/-- Modelled from the spec: see `ESetPoweredCommand`. -/
def ESetBREDRCommand : Nat := 42

/-- Modelled from the spec: see `ESetPoweredCommand`. -/
def ESetSecureConnectionsCommand : Nat := 45

/-- Modelled from the spec: see `ESetPoweredCommand`. -/
def EAddAdvertisingCommand : Nat := 62

/-- Modelled from the spec: maximum advertising-name length of the missing
Mgmt.h header (the name field is 249 bytes, holding at most 248 name bytes). -/
def kMaxAdvertisingNameLength : Nat := 248

/-- Modelled from the spec: maximum advertising-short-name length of the
missing Mgmt.h header (the short-name field is 11 bytes, at most 10 name
bytes). -/
def kMaxAdvertisingShortNameLength : Nat := 10

/-- Mgmt::truncateName of src/src/Mgmt.cpp: truncate to the maximum adapter
name length, returning the input unchanged when it already fits. -/
def truncateName (name : List Nat) : List Nat :=
  if name.length ≤ kMaxAdvertisingNameLength then name
  else name.take kMaxAdvertisingNameLength

/-- Mgmt::truncateShortName of src/src/Mgmt.cpp. -/
def truncateShortName (name : List Nat) : List Nat :=
  if name.length ≤ kMaxAdvertisingShortNameLength then name
  else name.take kMaxAdvertisingShortNameLength

/-- Effect of `memset(field, 0, fieldSize)` followed by
`snprintf(field, fieldSize, "%s", src)`: the source bytes up to the first
NUL, capped at `fieldSize - 1`, then zero fill up to `fieldSize`. -/
def snprintfField (src : List Nat) (fieldSize : Nat) : List Nat :=
  let s := (src.takeWhile (fun b => b != 0)).take (fieldSize - 1)
  s ++ List.replicate (fieldSize - s.length) 0

/-- The 249-byte `name` field of the SRequest built by Mgmt::setName. -/
def setNameNameField (name : List Nat) : List Nat :=
  snprintfField (truncateName name) 249

/-- The 11-byte `shortName` field of the SRequest built by Mgmt::setName. -/
def setNameShortField (shortName : List Nat) : List Nat :=
  snprintfField (truncateShortName shortName) 11

/-- The full packet built by Mgmt::setName: header with
dataSize = sizeof(SRequest) - sizeof(HciHeader) = 249 + 11, then the two
zero-padded name fields. -/
def setNamePacket (controllerIndex : Nat) (name shortName : List Nat) :
    List Nat :=
  hciHeader ESetLocalNameCommand controllerIndex (249 + 11)
    ++ (setNameNameField name ++ setNameShortField shortName)

/-- The packet built by Mgmt::setDiscoverable: one uint8_t mode byte then a
little-endian uint16_t timeout, dataSize = 3. -/
def setDiscoverablePacket (controllerIndex disc timeout : Nat) : List Nat :=
  hciHeader ESetDiscoverableCommand controllerIndex 3
    ++ ([disc % 256] ++ le16 timeout)

/-- The packet built by Mgmt::setState: a single uint8_t state byte,
dataSize = 1. -/
def setStatePacket (commandCode controllerId newState : Nat) : List Nat :=
  hciHeader commandCode controllerId 1 ++ [newState % 256]

/-- struct RawAdvertisingData of src/include/Gobbledegook.h: two uint8_t
lengths and two byte-buffer pointers (`none` models a null pointer). -/
structure RawAdvertisingData where
  advDataLen : Nat
  rspDataLen : Nat
  advData : Option (List Nat)
  rspData : Option (List Nat)

/-- The guarded copy of Mgmt::setRawAdvertisingData: `memcpy` of `n` bytes is
executed only when `n > 0`, so a null pointer with a zero length is never
dereferenced; dereferencing null with a positive length is the error case. -/
def copyMem : Option (List Nat) → Nat → Option (List Nat)
  | _, 0 => some []
  | some src, n + 1 => some (src.take (n + 1))
  | none, _ + 1 => none

/-- The packet built by Mgmt::setRawAdvertisingData: header with
dataSize = 11 + advDataLen + rspDataLen, then the packed fixed fields
Instance (u8, 1), Flags (u32, 0), Duration (u16, 0), Timeout (u16, 0),
Adv_Data_Len, Scan_Rsp_Len, then the advertising bytes followed by the
scan-response bytes. -/
def setRawAdvertisingDataPacket (controllerIndex : Nat)
    (adv : RawAdvertisingData) : Option (List Nat) :=
  match copyMem adv.advData adv.advDataLen, copyMem adv.rspData adv.rspDataLen with
  | some a, some r =>
      some (hciHeader EAddAdvertisingCommand controllerIndex
              (11 + adv.advDataLen + adv.rspDataLen)
        ++ ([1] ++ le32 0 ++ le16 0 ++ le16 0
              ++ [adv.advDataLen % 256] ++ [adv.rspDataLen % 256]
              ++ (a ++ r)))
  | _, _ => none

/-- Decode the command code, controller id and state byte out of a
single-byte-payload packet (inverse direction of the header layout). -/
def decodeStatePacket (p : List Nat) : Nat × Nat × Nat :=
  (readLE16 p 0, readLE16 p 2, p.getD 6 0)

/-- The Transport collaborator: HciAdapter sendCommand as a success oracle
on the encoded packet. -/
def Transport : Type := List Nat → Bool

/-- The data interpolated into each Logger::warn call of src/src/Mgmt.cpp.
Mgmt::setState names the command and the attempted state value; setName,
setDiscoverable and setRawAdvertisingData emit fixed component messages. -/
inductive LogMsg where
  | failedSetName : LogMsg
  | failedSetDiscoverable : LogMsg
  | failedSetState (commandCode newState : Nat) : LogMsg
deriving DecidableEq

/-- Observable effect of one Mgmt operation: a command submitted to the
Transport, a usleep delay in microseconds, or a warn-level log. -/
inductive Effect where
  | send (packet : List Nat) : Effect
  | sleep (usec : Nat) : Effect
  | logWarn (msg : LogMsg) : Effect
deriving DecidableEq

/-- The shared control shape of every simple setter in src/src/Mgmt.cpp:
send one encoded request; on Transport failure log one warn diagnostic and
return false, otherwise return true. -/
def sendOneCommand (t : Transport) (p : List Nat) (w : LogMsg) :
    Bool × List Effect :=
  if t p then (true, [Effect.send p])
  else (false, [Effect.send p, Effect.logWarn w])

/-- Mgmt::setState as a run: one command, warn names the code and the value. -/
def setStateRun (t : Transport) (commandCode controllerId newState : Nat) :
    Bool × List Effect :=
  sendOneCommand t (setStatePacket commandCode controllerId newState)
    (LogMsg.failedSetState commandCode newState)

/-- Mgmt::setName as a run: its warn diagnostic is the fixed message
"Failed to set name". -/
def setNameRun (t : Transport) (controllerIndex : Nat)
    (name shortName : List Nat) : Bool × List Effect :=
  sendOneCommand t (setNamePacket controllerIndex name shortName)
    LogMsg.failedSetName

/-- Mgmt::setDiscoverable as a run: its warn diagnostic is the fixed message
"Failed to set discoverable". -/
def setDiscoverableRun (t : Transport) (controllerIndex disc timeout : Nat) :
    Bool × List Effect :=
  sendOneCommand t (setDiscoverablePacket controllerIndex disc timeout)
    LogMsg.failedSetDiscoverable

/-- Mgmt::setPowered: setState with the powered command and 1/0 for the bool. -/
def setPoweredRun (t : Transport) (controllerIndex : Nat) (newState : Bool) :
    Bool × List Effect :=
  setStateRun t ESetPoweredCommand controllerIndex (if newState then 1 else 0)

/-- Mgmt::setBredr. -/
def setBredrRun (t : Transport) (controllerIndex : Nat) (newState : Bool) :
    Bool × List Effect :=
  setStateRun t ESetBREDRCommand controllerIndex (if newState then 1 else 0)

/-- Mgmt::setSecureConnections (uint8_t state passed through). -/
def setSecureConnectionsRun (t : Transport) (controllerIndex newState : Nat) :
    Bool × List Effect :=
  setStateRun t ESetSecureConnectionsCommand controllerIndex newState

/-- Mgmt::setBondable. -/
def setBondableRun (t : Transport) (controllerIndex : Nat) (newState : Bool) :
    Bool × List Effect :=
  setStateRun t ESetBondableCommand controllerIndex (if newState then 1 else 0)

/-- Mgmt::setConnectable. -/
def setConnectableRun (t : Transport) (controllerIndex : Nat)
    (newState : Bool) : Bool × List Effect :=
  setStateRun t ESetConnectableCommand controllerIndex
    (if newState then 1 else 0)

/-- Mgmt::setLE. -/
def setLERun (t : Transport) (controllerIndex : Nat) (newState : Bool) :
    Bool × List Effect :=
  setStateRun t ESetLowEnergyCommand controllerIndex (if newState then 1 else 0)

/-- Mgmt::setAdvertising (uint8_t state passed through). -/
def setAdvertisingRun (t : Transport) (controllerIndex newState : Nat) :
    Bool × List Effect :=
  setStateRun t ESetAdvertisingCommand controllerIndex newState

/-- Mgmt::setRawAdvertisingData as a run: setPowered(0) with its result
discarded, usleep(200 * 1000), then build and send the add-advertising
packet; `none` only when a needed data pointer is null. -/
def setRawAdvertisingDataRun (t : Transport) (controllerIndex : Nat)
    (adv : RawAdvertisingData) : Option (Bool × List Effect) :=
  let pw := setPoweredRun t controllerIndex false
  match setRawAdvertisingDataPacket controllerIndex adv with
  | none => none
  | some p =>
      if t p then some (true, pw.2 ++ [Effect.sleep 200000, Effect.send p])
      else some (false, pw.2 ++ [Effect.sleep 200000, Effect.send p,
                                 Effect.logWarn LogMsg.failedSetDiscoverable])

/-- The packets submitted to the Transport during a run, in order. -/
def sendsOf (effs : List Effect) : List (List Nat) :=
  effs.filterMap fun e =>
    match e with
    | Effect.send p => some p
    | _ => none

/-- The warn diagnostics emitted during a run, in order. -/
def warnsOf (effs : List Effect) : List LogMsg :=
  effs.filterMap fun e =>
    match e with
    | Effect.logWarn m => some m
    | _ => none

/-- A run with the log effects erased: only sends and sleeps remain. -/
def sendsAndSleeps (effs : List Effect) : List Effect :=
  effs.filter fun e =>
    match e with
    | Effect.logWarn _ => false
    | _ => true

/-- The obligations of one simple setter: it submits exactly its own packet,
returns exactly the Transport verdict on that packet, and emits exactly one
fixed warn diagnostic when (and only when) the Transport fails. -/
def SetterOk (t : Transport) (r : Bool × List Effect) (p : List Nat)
    (w : LogMsg) : Prop :=
  sendsOf r.2 = [p] ∧ r.1 = t p
    ∧ warnsOf r.2 = (if t p then [] else [w])

/-- Modelled from the spec: an Update Queue entry (object path and D-Bus
interface name); the queue implementation is not part of the excerpted
sources. -/
structure UpdateQueueEntry where
  objectPath : String
  interfaceName : String
deriving DecidableEq

/-- Modelled from the spec: serialization of a queue entry into the caller
buffer (object path, separator, interface name). -/
def serializeEntry (e : UpdateQueueEntry) : String :=
  e.objectPath ++ "|" ++ e.interfaceName

/-- Modelled from the spec: ggkPushUpdateQueue inserts at the front; the
oldest entry is therefore at the back of the list. -/
def ggkPushUpdateQueue (q : List UpdateQueueEntry) (e : UpdateQueueEntry) :
    List UpdateQueueEntry :=
  e :: q

/-- Modelled from the spec: ggkPopUpdateQueue (implementation not under the
excerpted sources).  Returns 1 with the oldest (back) entry on success, 0
when the queue is empty, and -1 when the caller buffer cannot hold the
serialized entry and its terminator; with `keep` the entry is only copied,
not removed. -/
def ggkPopUpdateQueue (q : List UpdateQueueEntry) (elementLen : Nat)
    (keep : Bool) : Int × Option String × List UpdateQueueEntry :=
  match q.getLast? with
  | none => (0, none, q)
  | some e =>
      let s := serializeEntry e
      if elementLen < s.length + 1 then (-1, none, q)
      else (1, some s, if keep then q else q.dropLast)

/-- GGKServerRunState of src/include/Gobbledegook.h. -/
inductive GGKServerRunState where
  | EUninitialized : GGKServerRunState
  | EInitializing : GGKServerRunState
  | ERunning : GGKServerRunState
  | EStopping : GGKServerRunState
  | EStopped : GGKServerRunState
deriving DecidableEq

/-- Position of a run state along the lifecycle order. -/
def runStateIdx : GGKServerRunState → Nat
  | GGKServerRunState.EUninitialized => 0
  | GGKServerRunState.EInitializing => 1
  | GGKServerRunState.ERunning => 2
  | GGKServerRunState.EStopping => 3
  | GGKServerRunState.EStopped => 4

/-- Modelled from the spec: the transitions the lifecycle owner may perform
(Uninitialized to Initializing to Running to Stopping to Stopped); the
state-machine implementation is not part of the excerpted sources. -/
def runStateStep : GGKServerRunState → GGKServerRunState → Bool
  | GGKServerRunState.EUninitialized, GGKServerRunState.EInitializing => true
  | GGKServerRunState.EInitializing, GGKServerRunState.ERunning => true
  | GGKServerRunState.ERunning, GGKServerRunState.EStopping => true
  | GGKServerRunState.EStopping, GGKServerRunState.EStopped => true
  | _, _ => false

/-- GGKServerHealth of src/include/Gobbledegook.h. -/
inductive GGKServerHealth where
  | EOk : GGKServerHealth
  | EFailedInit : GGKServerHealth
  | EFailedRun : GGKServerHealth
deriving DecidableEq

/-- Modelled from the spec: the health updates the lifecycle owner may
perform; health may be left unchanged, or set away from EOk once (set once,
sticky). -/
def healthStep : GGKServerHealth → GGKServerHealth → Bool
  | h, g => h == g || h == GGKServerHealth.EOk

/-- A value below 65536 is recovered from its two little-endian bytes. -/
theorem le16_readback (v : Nat) (h : v < 65536) :
    v % 256 + 256 * (v / 256 % 256) = v := by
  omega

/-- `copyMem` from a non-null pointer always succeeds and yields the first
`n` bytes. -/
theorem copyMem_some (l : List Nat) (n : Nat) :
    copyMem (some l) n = some (l.take n) := by
  cases n <;> rfl

/-- takeWhile with the nonzero test keeps a NUL-free byte list whole. -/
theorem takeWhile_ne_zero (l : List Nat) (h : 0 ∉ l) :
    l.takeWhile (fun b => b != 0) = l := by
  induction l with
  | nil => rfl
  | cons a as ih =>
      have ha : (a != 0) = true := by
        simp only [bne_iff_ne, ne_eq]
        intro e
        exact h (by simp [e])
      have hm : (0 : Nat) ∉ as := fun m => h (List.mem_cons_of_mem a m)
      simp [List.takeWhile_cons, ha, ih hm]

/-- The snprintf-built field always has exactly the field size. -/
theorem snprintfField_length (src : List Nat) (n : Nat) :
    (snprintfField src n).length = n := by
  simp only [snprintfField, List.length_append, List.length_replicate,
    List.length_take]
  omega

/-- A NUL-free source that fits (with its terminator) is copied whole and
zero padded. -/
theorem snprintfField_of_le (src : List Nat) (n : Nat) (h0 : 0 ∉ src)
    (h : src.length ≤ n - 1) :
    snprintfField src n = src ++ List.replicate (n - src.length) 0 := by
  simp only [snprintfField]
  rw [takeWhile_ne_zero src h0, List.take_of_length_le h]

/-- Membership is preserved into a take prefix. -/
theorem not_mem_take (l : List Nat) (n : Nat) (h : 0 ∉ l) : 0 ∉ l.take n :=
  fun m => h ((List.take_sublist n l).subset m)

/-- C2: setDiscoverable(0x02, 30) encodes the 6-byte header with the
set-discoverable command code, the controller index and dataSize = 3,
followed by exactly the payload bytes [0x02, 0x1E, 0x00]. -/
theorem setDiscoverable_encodes_limited30 (ctrl : Nat) (h : ctrl < 65536) :
    (setDiscoverablePacket ctrl 2 30).drop 6 = [2, 30, 0]
  ∧ readLE16 (setDiscoverablePacket ctrl 2 30) 0 = ESetDiscoverableCommand
  ∧ readLE16 (setDiscoverablePacket ctrl 2 30) 2 = ctrl
  ∧ readLE16 (setDiscoverablePacket ctrl 2 30) 4 = 3
  ∧ (setDiscoverablePacket ctrl 2 30).length = 6 + 3 := by
  refine ⟨rfl, rfl, ?_, rfl, rfl⟩
  show ctrl % 256 + 256 * (ctrl / 256 % 256) = ctrl
  exact le16_readback ctrl h

/-- C2 witness: the encoding at controller index 1. -/
theorem setDiscoverable_encodes_limited30_witness :
    (setDiscoverablePacket 1 2 30).drop 6 = [2, 30, 0]
  ∧ readLE16 (setDiscoverablePacket 1 2 30) 2 = 1 :=
  ⟨(setDiscoverable_encodes_limited30 1 (by decide)).1,
   (setDiscoverable_encodes_limited30 1 (by decide)).2.2.1⟩

/-- C3: the name field built by setName is a fixed 249-byte zero-initialized
field; a NUL-free name of at most 248 bytes is copied exactly and followed
by at least one zero byte, a longer one is truncated to exactly 248 bytes
and null-terminated, and nothing is written outside the field; analogously
for the 11-byte short-name field with maximum 10. -/
theorem setName_truncates_and_terminates (name shortName : List Nat)
    (hn : 0 ∉ name) (hs : 0 ∉ shortName) :
    (setNameNameField name).length = 249
  ∧ (name.length ≤ 248 →
      setNameNameField name = name ++ List.replicate (249 - name.length) 0)
  ∧ (248 < name.length →
      setNameNameField name = name.take 248 ++ [0])
  ∧ (setNameShortField shortName).length = 11
  ∧ (shortName.length ≤ 10 →
      setNameShortField shortName
        = shortName ++ List.replicate (11 - shortName.length) 0)
  ∧ (10 < shortName.length →
      setNameShortField shortName = shortName.take 10 ++ [0]) := by
  refine ⟨snprintfField_length _ _, ?_, ?_, snprintfField_length _ _, ?_, ?_⟩
  · intro hle
    have htr : truncateName name = name := by
      simp [truncateName, kMaxAdvertisingNameLength, hle]
    rw [setNameNameField, htr, snprintfField_of_le name 249 hn (by omega)]
  · intro hgt
    have htr : truncateName name = name.take 248 := by
      simp only [truncateName, kMaxAdvertisingNameLength]
      rw [if_neg (by omega)]
    have hlen : (name.take 248).length = 248 := by
      simp only [List.length_take]
      omega
    rw [setNameNameField, htr,
      snprintfField_of_le _ 249 (not_mem_take name 248 hn) (by omega), hlen]
    rfl
  · intro hle
    have htr : truncateShortName shortName = shortName := by
      simp [truncateShortName, kMaxAdvertisingShortNameLength, hle]
    rw [setNameShortField, htr, snprintfField_of_le shortName 11 hs (by omega)]
  · intro hgt
    have htr : truncateShortName shortName = shortName.take 10 := by
      simp only [truncateShortName, kMaxAdvertisingShortNameLength]
      rw [if_neg (by omega)]
    have hlen : (shortName.take 10).length = 10 := by
      simp only [List.length_take]
      omega
    rw [setNameShortField, htr,
      snprintfField_of_le _ 11 (not_mem_take shortName 10 hs) (by omega), hlen]
    rfl

/-- C3 witness: a two-byte name and a one-byte short name are copied exactly
and zero padded to the fixed field sizes. -/
theorem setName_truncates_and_terminates_witness :
    setNameNameField [72, 105] = [72, 105] ++ List.replicate 247 0
  ∧ setNameShortField [72] = [72] ++ List.replicate 10 0 :=
  ⟨(setName_truncates_and_terminates [72, 105] [72] (by decide)
      (by decide)).2.1 (by decide),
   (setName_truncates_and_terminates [72, 105] [72] (by decide)
      (by decide)).2.2.2.2.1 (by decide)⟩

/-- C1: setRawAdvertisingData builds one buffer of exactly 6 + 11 +
advDataLen + rspDataLen bytes, stores dataSize = 11 + advDataLen +
rspDataLen, writes Adv_Data_Len and Scan_Rsp_Len at offsets 15 and 16, and
places the advertising bytes immediately followed by the scan-response
bytes in the variable region. -/
theorem setRawAdvertisingData_buffer_layout (ctrl a r : Nat)
    (advB rspB : List Nat) (ha : a < 256) (hr : r < 256)
    (hla : advB.length = a) (hlr : rspB.length = r) :
    ∃ p, setRawAdvertisingDataPacket ctrl ⟨a, r, some advB, some rspB⟩ = some p
      ∧ p.length = 6 + 11 + a + r
      ∧ readLE16 p 4 = 11 + a + r
      ∧ p.getD 15 0 = a
      ∧ p.getD 16 0 = r
      ∧ p.drop 17 = advB ++ rspB := by
  subst hla
  subst hlr
  refine ⟨hciHeader EAddAdvertisingCommand ctrl
      (11 + advB.length + rspB.length)
    ++ ([1] ++ le32 0 ++ le16 0 ++ le16 0
          ++ [advB.length % 256] ++ [rspB.length % 256]
          ++ (advB ++ rspB)), ?_, ?_, ?_, ?_, ?_, ?_⟩
  · unfold setRawAdvertisingDataPacket
    rw [copyMem_some, copyMem_some]
    simp [List.take_length]
  · simp [hciHeader, le16, le32, List.length_append]
    omega
  · show (11 + advB.length + rspB.length) % 256
        + 256 * ((11 + advB.length + rspB.length) / 256 % 256)
        = 11 + advB.length + rspB.length
    omega
  · show advB.length % 256 = advB.length
    omega
  · show rspB.length % 256 = rspB.length
    omega
  · rfl

/-- C1 witness: advDataLen = 10 and rspDataLen = 5 give a 32-byte buffer
with dataSize = 26 and the 15 data bytes in order advData then rspData. -/
theorem setRawAdvertisingData_buffer_layout_witness :
    ∃ p, setRawAdvertisingDataPacket 0
        { advDataLen := 10, rspDataLen := 5,
          advData := some [1, 2, 3, 4, 5, 6, 7, 8, 9, 10],
          rspData := some [11, 12, 13, 14, 15] } = some p
      ∧ p.length = 32
      ∧ readLE16 p 4 = 26
      ∧ p.getD 15 0 = 10
      ∧ p.getD 16 0 = 5
      ∧ p.drop 17 = [1, 2, 3, 4, 5, 6, 7, 8, 9, 10] ++ [11, 12, 13, 14, 15] :=
  setRawAdvertisingData_buffer_layout 0 10 5
    [1, 2, 3, 4, 5, 6, 7, 8, 9, 10] [11, 12, 13, 14, 15]
    (by decide) (by decide) (by decide) (by decide)

/-- C4: setRawAdvertisingData, up to warn logs, performs exactly the
sequence: send set-powered with state 0, sleep 200000 microseconds, send the
add-advertising packet; and that packet carries the fixed fields Instance=1,
Flags=0, Duration=0, Timeout=0 followed by the raw caller bytes. -/
theorem setRawAdvertisingData_sequence (t : Transport) (ctrl a r : Nat)
    (advB rspB : List Nat) (hla : advB.length = a) (hlr : rspB.length = r) :
    ∃ res effs p,
      setRawAdvertisingDataRun t ctrl ⟨a, r, some advB, some rspB⟩
        = some (res, effs)
      ∧ setRawAdvertisingDataPacket ctrl ⟨a, r, some advB, some rspB⟩ = some p
      ∧ sendsAndSleeps effs
          = [Effect.send (setStatePacket ESetPoweredCommand ctrl 0),
             Effect.sleep 200000, Effect.send p]
      ∧ (p.drop 6).take 9 = [1, 0, 0, 0, 0, 0, 0, 0, 0]
      ∧ p.drop 17 = advB ++ rspB := by
  subst hla
  subst hlr
  have hpkt : setRawAdvertisingDataPacket ctrl
      ⟨advB.length, rspB.length, some advB, some rspB⟩
      = some (hciHeader EAddAdvertisingCommand ctrl
          (11 + advB.length + rspB.length)
        ++ ([1] ++ le32 0 ++ le16 0 ++ le16 0
              ++ [advB.length % 256] ++ [rspB.length % 256]
              ++ (advB ++ rspB))) := by
    unfold setRawAdvertisingDataPacket
    rw [copyMem_some, copyMem_some]
    simp [List.take_length]
  set PP : List Nat := hciHeader EAddAdvertisingCommand ctrl
      (11 + advB.length + rspB.length)
    ++ ([1] ++ le32 0 ++ le16 0 ++ le16 0
          ++ [advB.length % 256] ++ [rspB.length % 256]
          ++ (advB ++ rspB)) with hPP
  cases h1 : t (setStatePacket ESetPoweredCommand ctrl 0)
  · cases h2 : t PP
    · exact ⟨false,
        [Effect.send (setStatePacket ESetPoweredCommand ctrl 0),
         Effect.logWarn (LogMsg.failedSetState ESetPoweredCommand 0),
         Effect.sleep 200000, Effect.send PP,
         Effect.logWarn LogMsg.failedSetDiscoverable], PP,
        by simp [setRawAdvertisingDataRun, setPoweredRun, setStateRun,
          sendOneCommand, hpkt, h1, h2],
        hpkt, rfl, rfl, rfl⟩
    · exact ⟨true,
        [Effect.send (setStatePacket ESetPoweredCommand ctrl 0),
         Effect.logWarn (LogMsg.failedSetState ESetPoweredCommand 0),
         Effect.sleep 200000, Effect.send PP], PP,
        by simp [setRawAdvertisingDataRun, setPoweredRun, setStateRun,
          sendOneCommand, hpkt, h1, h2],
        hpkt, rfl, rfl, rfl⟩
  · cases h2 : t PP
    · exact ⟨false,
        [Effect.send (setStatePacket ESetPoweredCommand ctrl 0),
         Effect.sleep 200000, Effect.send PP,
         Effect.logWarn LogMsg.failedSetDiscoverable], PP,
        by simp [setRawAdvertisingDataRun, setPoweredRun, setStateRun,
          sendOneCommand, hpkt, h1, h2],
        hpkt, rfl, rfl, rfl⟩
    · exact ⟨true,
        [Effect.send (setStatePacket ESetPoweredCommand ctrl 0),
         Effect.sleep 200000, Effect.send PP], PP,
        by simp [setRawAdvertisingDataRun, setPoweredRun, setStateRun,
          sendOneCommand, hpkt, h1, h2],
        hpkt, rfl, rfl, rfl⟩

/-- C4 witness: the sequence at a one-byte advertising payload under an
always-succeeding Transport. -/
theorem setRawAdvertisingData_sequence_witness :
    ∃ res effs p,
      setRawAdvertisingDataRun (fun _ => true) 0
          { advDataLen := 1, rspDataLen := 0,
            advData := some [7], rspData := some [] } = some (res, effs)
      ∧ setRawAdvertisingDataPacket 0
          { advDataLen := 1, rspDataLen := 0,
            advData := some [7], rspData := some [] } = some p
      ∧ sendsAndSleeps effs
          = [Effect.send (setStatePacket ESetPoweredCommand 0 0),
             Effect.sleep 200000, Effect.send p]
      ∧ (p.drop 6).take 9 = [1, 0, 0, 0, 0, 0, 0, 0, 0]
      ∧ p.drop 17 = [7] ++ [] :=
  setRawAdvertisingData_sequence (fun _ => true) 0 1 0 [7] []
    (by decide) (by decide)

/-- The name field always has exactly 249 bytes. -/
theorem setNameNameField_length (name : List Nat) :
    (setNameNameField name).length = 249 :=
  snprintfField_length _ _

/-- The short-name field always has exactly 11 bytes. -/
theorem setNameShortField_length (shortName : List Nat) :
    (setNameShortField shortName).length = 11 :=
  snprintfField_length _ _

/-- C5: every encoder output starts with the 6-byte little-endian header, is
followed immediately by its payload, and the stored dataSize equals the
payload byte count (total size minus the 6-byte header). -/
theorem commandPacket_header_dataSize :
    (∀ ctrl name shortName, ∃ pl,
        setNamePacket ctrl name shortName
          = hciHeader ESetLocalNameCommand ctrl pl.length ++ pl
        ∧ pl.length = 260
        ∧ readLE16 (setNamePacket ctrl name shortName) 4 = pl.length)
  ∧ (∀ ctrl disc timeout, ∃ pl,
        setDiscoverablePacket ctrl disc timeout
          = hciHeader ESetDiscoverableCommand ctrl pl.length ++ pl
        ∧ pl.length = 3
        ∧ readLE16 (setDiscoverablePacket ctrl disc timeout) 4 = pl.length)
  ∧ (∀ code ctrl s, ∃ pl,
        setStatePacket code ctrl s = hciHeader code ctrl pl.length ++ pl
        ∧ pl.length = 1
        ∧ readLE16 (setStatePacket code ctrl s) 4 = pl.length)
  ∧ (∀ ctrl a r advB rspB, a < 256 → r < 256 →
        advB.length = a → rspB.length = r →
        ∃ pl, setRawAdvertisingDataPacket ctrl ⟨a, r, some advB, some rspB⟩
            = some (hciHeader EAddAdvertisingCommand ctrl pl.length ++ pl)
        ∧ pl.length = 11 + a + r
        ∧ readLE16 (hciHeader EAddAdvertisingCommand ctrl pl.length ++ pl) 4
            = pl.length) := by
  refine ⟨?_, ?_, ?_, ?_⟩
  · intro ctrl name shortName
    refine ⟨setNameNameField name ++ setNameShortField shortName, ?_, ?_, ?_⟩
    · rw [List.length_append, setNameNameField_length, setNameShortField_length]
      rfl
    · rw [List.length_append, setNameNameField_length, setNameShortField_length]
    · rw [List.length_append, setNameNameField_length, setNameShortField_length]
      rfl
  · intro ctrl disc timeout
    exact ⟨[disc % 256] ++ le16 timeout, rfl, rfl, rfl⟩
  · intro code ctrl s
    exact ⟨[s % 256], rfl, rfl, rfl⟩
  · intro ctrl a r advB rspB ha hr hla hlr
    subst hla
    subst hlr
    refine ⟨[1] ++ le32 0 ++ le16 0 ++ le16 0
        ++ [advB.length % 256] ++ [rspB.length % 256] ++ (advB ++ rspB),
      ?_, ?_, ?_⟩
    · have hlen : ([1] ++ le32 0 ++ le16 0 ++ le16 0
          ++ [advB.length % 256] ++ [rspB.length % 256]
          ++ (advB ++ rspB)).length
          = 11 + advB.length + rspB.length := by
        simp [le32, le16, List.length_append]
        omega
      rw [hlen]
      unfold setRawAdvertisingDataPacket
      rw [copyMem_some, copyMem_some]
      simp [List.take_length]
    · simp [le32, le16, List.length_append]
      omega
    · have hlen : ([1] ++ le32 0 ++ le16 0 ++ le16 0
          ++ [advB.length % 256] ++ [rspB.length % 256]
          ++ (advB ++ rspB)).length
          = 11 + advB.length + rspB.length := by
        simp [le32, le16, List.length_append]
        omega
      rw [hlen]
      show (11 + advB.length + rspB.length) % 256
          + 256 * ((11 + advB.length + rspB.length) / 256 % 256)
          = 11 + advB.length + rspB.length
      omega

/-- C5 witness: the add-advertising conjunct at a one-byte payload each. -/
theorem commandPacket_header_dataSize_witness :
    ∃ pl, setRawAdvertisingDataPacket 0
        { advDataLen := 1, rspDataLen := 1,
          advData := some [170], rspData := some [187] }
        = some (hciHeader EAddAdvertisingCommand 0 pl.length ++ pl)
      ∧ pl.length = 13
      ∧ readLE16 (hciHeader EAddAdvertisingCommand 0 pl.length ++ pl) 4
          = pl.length :=
  commandPacket_header_dataSize.2.2.2 0 1 1 [170] [187]
    (by decide) (by decide) (by decide) (by decide)

/-- The packet sent by Mgmt::setPowered. -/
def setPoweredPacket (controllerIndex : Nat) (newState : Bool) : List Nat :=
  setStatePacket ESetPoweredCommand controllerIndex (if newState then 1 else 0)

/-- The packet sent by Mgmt::setBredr. -/
def setBredrPacket (controllerIndex : Nat) (newState : Bool) : List Nat :=
  setStatePacket ESetBREDRCommand controllerIndex (if newState then 1 else 0)

/-- The packet sent by Mgmt::setSecureConnections. -/
def setSecureConnectionsPacket (controllerIndex newState : Nat) : List Nat :=
  setStatePacket ESetSecureConnectionsCommand controllerIndex newState

/-- The packet sent by Mgmt::setBondable. -/
def setBondablePacket (controllerIndex : Nat) (newState : Bool) : List Nat :=
  setStatePacket ESetBondableCommand controllerIndex (if newState then 1 else 0)

/-- The packet sent by Mgmt::setConnectable. -/
def setConnectablePacket (controllerIndex : Nat) (newState : Bool) : List Nat :=
  setStatePacket ESetConnectableCommand controllerIndex
    (if newState then 1 else 0)

/-- The packet sent by Mgmt::setLE. -/
def setLEPacket (controllerIndex : Nat) (newState : Bool) : List Nat :=
  setStatePacket ESetLowEnergyCommand controllerIndex
    (if newState then 1 else 0)

/-- The packet sent by Mgmt::setAdvertising. -/
def setAdvertisingPacket (controllerIndex newState : Nat) : List Nat :=
  setStatePacket ESetAdvertisingCommand controllerIndex newState

/-- Decoding a single-byte-payload state packet recovers its inputs. -/
theorem decode_setStatePacket (code ctrl s : Nat) (hc : code < 65536)
    (ht : ctrl < 65536) (hs : s < 256) :
    decodeStatePacket (setStatePacket code ctrl s) = (code, ctrl, s) := by
  show (code % 256 + 256 * (code / 256 % 256),
        ctrl % 256 + 256 * (ctrl / 256 % 256), s % 256) = (code, ctrl, s)
  simp only [Prod.mk.injEq]
  omega

/-- C6: for every boolean-state setter, decoding the produced packet yields
exactly the requested command code, controller id and state byte. -/
theorem stateSetters_roundTrip (ctrl : Nat) (ht : ctrl < 65536) :
    (∀ b : Bool, decodeStatePacket (setPoweredPacket ctrl b)
        = (ESetPoweredCommand, ctrl, if b then 1 else 0))
  ∧ (∀ b : Bool, decodeStatePacket (setBredrPacket ctrl b)
        = (ESetBREDRCommand, ctrl, if b then 1 else 0))
  ∧ (∀ b : Bool, decodeStatePacket (setBondablePacket ctrl b)
        = (ESetBondableCommand, ctrl, if b then 1 else 0))
  ∧ (∀ b : Bool, decodeStatePacket (setConnectablePacket ctrl b)
        = (ESetConnectableCommand, ctrl, if b then 1 else 0))
  ∧ (∀ b : Bool, decodeStatePacket (setLEPacket ctrl b)
        = (ESetLowEnergyCommand, ctrl, if b then 1 else 0))
  ∧ (∀ s, s < 256 → decodeStatePacket (setSecureConnectionsPacket ctrl s)
        = (ESetSecureConnectionsCommand, ctrl, s))
  ∧ (∀ s, s < 256 → decodeStatePacket (setAdvertisingPacket ctrl s)
        = (ESetAdvertisingCommand, ctrl, s)) := by
  refine ⟨?_, ?_, ?_, ?_, ?_, ?_, ?_⟩
  · intro b
    cases b <;> exact decode_setStatePacket _ ctrl _ (by decide) ht (by decide)
  · intro b
    cases b <;> exact decode_setStatePacket _ ctrl _ (by decide) ht (by decide)
  · intro b
    cases b <;> exact decode_setStatePacket _ ctrl _ (by decide) ht (by decide)
  · intro b
    cases b <;> exact decode_setStatePacket _ ctrl _ (by decide) ht (by decide)
  · intro b
    cases b <;> exact decode_setStatePacket _ ctrl _ (by decide) ht (by decide)
  · intro s hs
    exact decode_setStatePacket _ ctrl s (by decide) ht hs
  · intro s hs
    exact decode_setStatePacket _ ctrl s (by decide) ht hs

/-- C6 witness: round trips at controller index 3. -/
theorem stateSetters_roundTrip_witness :
    decodeStatePacket (setPoweredPacket 3 true) = (ESetPoweredCommand, 3, 1)
  ∧ decodeStatePacket (setAdvertisingPacket 3 2)
      = (ESetAdvertisingCommand, 3, 2) :=
  ⟨(stateSetters_roundTrip 3 (by decide)).1 true,
   (stateSetters_roundTrip 3 (by decide)).2.2.2.2.2.2 2 (by decide)⟩

/-- Every sendOneCommand run satisfies the single-send obligations. -/
theorem sendOneCommand_spec (t : Transport) (p : List Nat) (w : LogMsg) :
    SetterOk t (sendOneCommand t p w) p w := by
  unfold SetterOk sendOneCommand
  cases h : t p <;> simp [h, sendsOf, warnsOf]

/-- C7 (amended): every simple setter submits exactly one command per
invocation, returns true exactly when the Transport reports success, and on
failure emits exactly one warn diagnostic and no retry; the shared state
setter's diagnostic carries the command and the attempted value, while
setName and setDiscoverable emit a fixed component-only diagnostic. -/
theorem simpleSetters_single_send (t : Transport) (ctrl : Nat)
    (name shortName : List Nat) (disc timeout s : Nat) (b : Bool) :
    SetterOk t (setNameRun t ctrl name shortName)
      (setNamePacket ctrl name shortName) LogMsg.failedSetName
  ∧ SetterOk t (setDiscoverableRun t ctrl disc timeout)
      (setDiscoverablePacket ctrl disc timeout) LogMsg.failedSetDiscoverable
  ∧ SetterOk t (setPoweredRun t ctrl b) (setPoweredPacket ctrl b)
      (LogMsg.failedSetState ESetPoweredCommand (if b then 1 else 0))
  ∧ SetterOk t (setBredrRun t ctrl b) (setBredrPacket ctrl b)
      (LogMsg.failedSetState ESetBREDRCommand (if b then 1 else 0))
  ∧ SetterOk t (setSecureConnectionsRun t ctrl s)
      (setSecureConnectionsPacket ctrl s)
      (LogMsg.failedSetState ESetSecureConnectionsCommand s)
  ∧ SetterOk t (setBondableRun t ctrl b) (setBondablePacket ctrl b)
      (LogMsg.failedSetState ESetBondableCommand (if b then 1 else 0))
  ∧ SetterOk t (setConnectableRun t ctrl b) (setConnectablePacket ctrl b)
      (LogMsg.failedSetState ESetConnectableCommand (if b then 1 else 0))
  ∧ SetterOk t (setLERun t ctrl b) (setLEPacket ctrl b)
      (LogMsg.failedSetState ESetLowEnergyCommand (if b then 1 else 0))
  ∧ SetterOk t (setAdvertisingRun t ctrl s) (setAdvertisingPacket ctrl s)
      (LogMsg.failedSetState ESetAdvertisingCommand s) :=
  ⟨sendOneCommand_spec t _ _, sendOneCommand_spec t _ _,
   sendOneCommand_spec t _ _, sendOneCommand_spec t _ _,
   sendOneCommand_spec t _ _, sendOneCommand_spec t _ _,
   sendOneCommand_spec t _ _, sendOneCommand_spec t _ _,
   sendOneCommand_spec t _ _⟩

/-- C7 witness: the obligations at a concrete failing Transport. -/
theorem simpleSetters_single_send_witness :
    SetterOk (fun _ => false) (setPoweredRun (fun _ => false) 0 false)
      (setPoweredPacket 0 false)
      (LogMsg.failedSetState ESetPoweredCommand 0) :=
  (simpleSetters_single_send (fun _ => false) 0 [] [] 0 0 0 false).2.2.1

/-- C7 counterexample: on Transport failure Mgmt::setName emits the same
fixed warn diagnostic for two different attempted name values, so the
diagnostic does not name the attempted value. -/
theorem setName_warn_ignores_attempted_value :
    ([65] : List Nat) ≠ [66]
  ∧ warnsOf (setNameRun (fun _ => false) 0 [65] []).2
      = [LogMsg.failedSetName]
  ∧ warnsOf (setNameRun (fun _ => false) 0 [66] []).2
      = [LogMsg.failedSetName] := by
  refine ⟨by decide, ?_, ?_⟩ <;> rfl

/-- C8: ggkPopUpdateQueue is tri-state: 1 with the oldest entry on success,
0 on the empty queue, and -1 when the caller buffer is too small; the empty
result 0 is distinct from the error result -1. -/
theorem popUpdateQueue_tristate :
    (∀ (elementLen : Nat) (keep : Bool),
        ggkPopUpdateQueue [] elementLen keep = (0, none, []))
  ∧ (∀ (older : List UpdateQueueEntry) (e : UpdateQueueEntry)
        (elementLen : Nat) (keep : Bool),
        (serializeEntry e).length + 1 ≤ elementLen →
        ggkPopUpdateQueue (older ++ [e]) elementLen keep
          = (1, some (serializeEntry e),
             if keep then older ++ [e] else older))
  ∧ (∀ (older : List UpdateQueueEntry) (e : UpdateQueueEntry)
        (elementLen : Nat) (keep : Bool),
        elementLen < (serializeEntry e).length + 1 →
        ggkPopUpdateQueue (older ++ [e]) elementLen keep
          = (-1, none, older ++ [e]))
  ∧ (0 : Int) ≠ -1 := by
  refine ⟨fun _ _ => rfl, ?_, ?_, by decide⟩
  · intro older e elementLen keep h
    unfold ggkPopUpdateQueue
    rw [List.getLast?_concat]
    simp only [if_neg (by omega : ¬ elementLen < (serializeEntry e).length + 1)]
    rw [List.dropLast_concat]
  · intro older e elementLen keep h
    unfold ggkPopUpdateQueue
    rw [List.getLast?_concat]
    simp only [if_pos h]

/-- C8 witness: the three results on concrete queues and buffer sizes. -/
theorem popUpdateQueue_tristate_witness :
    ggkPopUpdateQueue [] 8 false = (0, none, [])
  ∧ ggkPopUpdateQueue [{ objectPath := "/a", interfaceName := "i" }] 8 false
      = (1, some "/a|i", [])
  ∧ ggkPopUpdateQueue [{ objectPath := "/a", interfaceName := "i" }] 2 false
      = (-1, none, [{ objectPath := "/a", interfaceName := "i" }]) := by
  refine ⟨popUpdateQueue_tristate.1 8 false, ?_, ?_⟩
  · have h := popUpdateQueue_tristate.2.1 []
      { objectPath := "/a", interfaceName := "i" } 8 false (by decide)
    simpa using h
  · have h := popUpdateQueue_tristate.2.2.1 []
      { objectPath := "/a", interfaceName := "i" } 2 false (by decide)
    simpa using h

/-- C9: run-state transitions only move forward along the lifecycle order,
EStopped is terminal, and a health value other than EOk is never changed
(failure health is sticky, never reset to EOk). -/
theorem runState_monotonic_health_sticky :
    (∀ s u, runStateStep s u = true → runStateIdx s < runStateIdx u)
  ∧ (∀ u, runStateStep GGKServerRunState.EStopped u = false)
  ∧ (∀ h g, h ≠ GGKServerHealth.EOk → healthStep h g = true → g = h) := by
  refine ⟨?_, ?_, ?_⟩
  · intro s u
    cases s <;> cases u <;> decide
  · intro u
    cases u <;> rfl
  · intro h g hne
    cases h with
    | EOk => exact absurd rfl hne
    | EFailedInit => cases g <;> decide
    | EFailedRun => cases g <;> decide

/-- C9 witness: one forward transition and one sticky failed-health update. -/
theorem runState_monotonic_health_sticky_witness :
    runStateIdx GGKServerRunState.ERunning
      < runStateIdx GGKServerRunState.EStopping
  ∧ GGKServerHealth.EFailedRun = GGKServerHealth.EFailedRun :=
  ⟨runState_monotonic_health_sticky.1 GGKServerRunState.ERunning
      GGKServerRunState.EStopping (by decide),
   runState_monotonic_health_sticky.2.2 GGKServerHealth.EFailedRun
      GGKServerHealth.EFailedRun (by decide) (by decide)⟩

/-- C10: the result of setRawAdvertisingData is exactly the Transport
verdict on the add-advertising packet, whatever the Transport answered to
the preliminary power-off command; and with both lengths zero no byte is
copied from the data pointers: the packet is built even from null pointers. -/
theorem setRawAdvertisingData_result_independent :
    (∀ (t : Transport) (ctrl : Nat) (adv : RawAdvertisingData) (p : List Nat),
        setRawAdvertisingDataPacket ctrl adv = some p →
        (setRawAdvertisingDataRun t ctrl adv).map Prod.fst = some (t p))
  ∧ (∀ ctrl, ∃ p,
        setRawAdvertisingDataPacket ctrl
          { advDataLen := 0, rspDataLen := 0,
            advData := none, rspData := none } = some p
        ∧ p.length = 17) := by
  constructor
  · intro t ctrl adv p hp
    unfold setRawAdvertisingDataRun
    rw [hp]
    cases h : t p <;> simp [h]
  · intro ctrl
    exact ⟨_, rfl, rfl⟩

/-- C10 witness: a Transport that fails every packet but the 17-byte
add-advertising packet still yields the overall result true. -/
theorem setRawAdvertisingData_result_independent_witness :
    (setRawAdvertisingDataRun (fun q => decide (q.length = 17)) 0
        { advDataLen := 0, rspDataLen := 0,
          advData := none, rspData := none }).map Prod.fst
      = some true := by
  have h := setRawAdvertisingData_result_independent.1
    (fun q => decide (q.length = 17)) 0
    { advDataLen := 0, rspDataLen := 0, advData := none, rspData := none }
    (hciHeader EAddAdvertisingCommand 0 11
      ++ ([1] ++ le32 0 ++ le16 0 ++ le16 0 ++ [0] ++ [0] ++ ([] ++ [])))
    rfl
  simpa using h

end GGK
